import Mathlib

/-!
Verification of the dynamic-attribute registry and address-resolution layer of
the `Canopen` Tango device (src/Canopen.py).

Python strings are modelled as `List Char` (`PyStr`); Python exceptions are
modelled by `Option`/`Except`; the external Tango and CANopen collaborators
(attribute framework, network, remote node) are modelled at their interface
boundary only, following the repository's own mock-based unit tests.
-/

namespace CanopenDev

/-- Python strings, modelled as lists of characters. -/
abbrev PyStr := List Char

/-- Shorthand to write a `PyStr` from a Lean string literal. -/
def str (s : String) : PyStr := s.data

/-- Python `s.startswith(pre)`. -/
def pyStartsWith (s pre : PyStr) : Bool := pre.isPrefixOf s

/-- Python `c in s` for a single-character needle. -/
def pyContains (s : PyStr) (c : Char) : Bool := s.contains c

/-- Python `s.split(sep)` for a single-character separator: splits on every
occurrence; the empty string splits to `[""]`. -/
def pySplit : PyStr → Char → List PyStr
  | [], _ => [[]]
  | c :: rest, sep =>
    if c = sep then [] :: pySplit rest sep
    else
      match pySplit rest sep with
      | h :: t => (c :: h) :: t
      | [] => [[c]]

/-- Value of a single hexadecimal digit, both cases accepted. -/
def hexDigitVal (c : Char) : Option Nat :=
  if '0' ≤ c ∧ c ≤ '9' then some (c.toNat - '0'.toNat)
  else if 'a' ≤ c ∧ c ≤ 'f' then some (c.toNat - 'a'.toNat + 10)
  else if 'A' ≤ c ∧ c ≤ 'F' then some (c.toNat - 'A'.toNat + 10)
  else none

/-- Value of a non-empty all-hex-digit string; `none` on the empty string or
any non-hex character (a Python `ValueError`). -/
def hexDigitsVal (s : PyStr) : Option Nat :=
  if s.isEmpty then none
  else s.foldl (fun acc c => acc.bind (fun a => (hexDigitVal c).map (fun d => 16 * a + d))) (some 0)

/-- Python `int(s, 16)`: an optional `"0x"`/`"0X"` prefix followed by a
non-empty run of hex digits. Signs, surrounding whitespace and underscore
separators are not modelled (no address in the program uses them). -/
def pyIntHex (s : PyStr) : Option Nat :=
  let body :=
    match s with
    | '0' :: x :: rest => if x = 'x' ∨ x = 'X' then rest else s
    | _ => s
  hexDigitsVal body

/-- ASCII decimal digit test. -/
def isAsciiDigit (c : Char) : Bool := '0' ≤ c && c ≤ '9'

/-- Python `s.isdigit()` restricted to ASCII: non-empty and all digits. -/
def pyIsDigit (s : PyStr) : Bool := !s.isEmpty && s.all isAsciiDigit

/-- Python `int(s)` on a string already known to satisfy `isdigit`. -/
def pyIntDec (s : PyStr) : Nat := s.foldl (fun a c => 10 * a + (c.toNat - '0'.toNat)) 0

/-- The access path `Canopen.sdo` takes into `node.sdo` for a stored index
string. `hexSubStr main sub` records the two-level access
`node.sdo[main][sub]` in which — as in the source — the first key is the
original *string* `main` and only the second is the parsed integer. -/
inductive SdoKey where
  | hexSubStr : PyStr → Nat → SdoKey
  | hexIdx : Nat → SdoKey
  | decIdx : Nat → SdoKey
  | named : PyStr → SdoKey
deriving Repr, DecidableEq

/-- Embeds `Canopen.sdo` (src/Canopen.py lines 81-93), given the index string
already looked up from `dynamic_attribute_indices`. `none` models a raised
`ValueError` (malformed hex numeral, or a `split` that does not unpack into
exactly two parts). In the hex+sub branch the source computes both
`mainIndexHex = int(mainIndex, 16)` and `subIndexHex = int(subIndex, 16)` —
either raises on bad input — but then indexes `node.sdo[mainIndex][subIndexHex]`
with the original string `mainIndex`. -/
def resolveSdoKey (indexName : PyStr) : Option SdoKey :=
  if pyStartsWith indexName (str "0x") then
    if pyContains indexName '#' then
      match pySplit indexName '#' with
      | [mainIndex, subIndex] =>
        match pyIntHex mainIndex with
        | none => none
        | some _mainIndexHex =>
          match pyIntHex subIndex with
          | none => none
          | some subIndexHex => some (.hexSubStr mainIndex subIndexHex)
      | _ => none
    else
      match pyIntHex indexName with
      | none => none
      | some i => some (.hexIdx i)
  else if pyIsDigit indexName then
    some (.decIdx (pyIntDec indexName))
  else
    some (.named indexName)

/-- The lookup `self.dynamic_attribute_indices[name]`; `none` models a
Python `KeyError`. -/
def lookupReg (d : List (PyStr × PyStr)) (k : PyStr) : Option PyStr :=
  (d.find? (fun p => p.1 = k)).map (fun p => p.2)

/-- Python `d[k] = v` on a dict: overwrites in place when the key is present
(keeping its position), otherwise appends the new binding. -/
def dictSet (d : List (PyStr × PyStr)) (k v : PyStr) : List (PyStr × PyStr) :=
  if (d.find? (fun p => p.1 = k)).isSome then
    d.map (fun p => if p.1 = k then (k, v) else p)
  else d ++ [(k, v)]

/-- Embeds `Canopen.sdo` (src/Canopen.py lines 81-93) including the registry
lookup on line 82: the access path into `node.sdo` chosen for attribute
`name`, or `none` when the lookup or a numeral parse raises. -/
def sdoResolve (d : List (PyStr × PyStr)) (name : PyStr) : Option SdoKey :=
  match lookupReg d name with
  | none => none
  | some indexName => resolveSdoKey indexName

/-- The Tango scalar types `stringValueToVarType` maps onto. -/
inductive CmdArgType where
  | DevBoolean | DevLong | DevDouble | DevFloat | DevString
deriving Repr, DecidableEq

/-- The Tango write modes `stringValueToWriteType` maps onto. -/
inductive AttrWriteType where
  | READ | WRITE | READ_WRITE | READ_WITH_WRITE
deriving Repr, DecidableEq

/-- Embeds `Canopen.stringValueToVarType` (src/Canopen.py lines 52-59):
a dict `get` with default `DevString`. -/
def stringValueToVarType (variable_type_name : PyStr) : CmdArgType :=
  if variable_type_name = str "DevBoolean" then .DevBoolean
  else if variable_type_name = str "DevLong" then .DevLong
  else if variable_type_name = str "DevDouble" then .DevDouble
  else if variable_type_name = str "DevFloat" then .DevFloat
  else if variable_type_name = str "DevString" then .DevString
  else .DevString

/-- Embeds `Canopen.stringValueToWriteType` (src/Canopen.py lines 61-67):
a dict `get` with default `READ_WRITE`. -/
def stringValueToWriteType (write_type_name : PyStr) : AttrWriteType :=
  if write_type_name = str "READ" then .READ
  else if write_type_name = str "WRITE" then .WRITE
  else if write_type_name = str "READ_WRITE" then .READ_WRITE
  else if write_type_name = str "READ_WITH_WRITE" then .READ_WITH_WRITE
  else .READ_WRITE

/-- The `UserDefaultAttrProp` built in `add_dynamic_attribute`: each field is
`some s` exactly when the corresponding `prop.set_*` call was made. -/
structure AttrProp where
  min_value : Option PyStr := none
  max_value : Option PyStr := none
  unit : Option PyStr := none
  min_alarm : Option PyStr := none
  max_alarm : Option PyStr := none
  min_warning : Option PyStr := none
  max_warning : Option PyStr := none
deriving Repr, DecidableEq

/-- The Tango `Attr` handed to `self.add_attribute`. -/
structure TangoAttr where
  name : PyStr
  varType : CmdArgType
  writeType : AttrWriteType
  prop : AttrProp
deriving Repr, DecidableEq

/-- The arguments of `add_dynamic_attribute`, with the source's defaults. -/
structure DynAttrArgs where
  name : PyStr
  index : PyStr
  variable_type_name : PyStr := str "DevString"
  min_value : PyStr := []
  max_value : PyStr := []
  unit : PyStr := []
  write_type_name : PyStr := []
  min_alarm : PyStr := []
  max_alarm : PyStr := []
  min_warning : PyStr := []
  max_warning : PyStr := []
deriving Repr, DecidableEq

/-- The device-instance state the registry layer touches:
`dynamic_attribute_indices` and the attributes registered with the external
framework via `self.add_attribute` (in call order). -/
structure DeviceRegState where
  dynamic_attribute_indices : List (PyStr × PyStr) := []
  added_attributes : List TangoAttr := []
deriving Repr, DecidableEq

/-- Embeds `Canopen.add_dynamic_attribute` (src/Canopen.py lines 27-50).
Returns the state after the call, together with the `Attr` handed to
`self.add_attribute` (`none` when the empty-index guard on lines 32-33
returns early). The two min/max guards are the source's
`min_value != "" and min_value != max_value` and
`max_value != "" and min_value != max_value`. -/
def add_dynamic_attribute (st : DeviceRegState) (a : DynAttrArgs) :
    DeviceRegState × Option TangoAttr :=
  if a.index = [] then (st, none)
  else
    let variableType := stringValueToVarType a.variable_type_name
    let writeType := stringValueToWriteType a.write_type_name
    let prop : AttrProp :=
      { min_value := if a.min_value ≠ [] ∧ a.min_value ≠ a.max_value then some a.min_value else none
        max_value := if a.max_value ≠ [] ∧ a.min_value ≠ a.max_value then some a.max_value else none
        unit := if a.unit ≠ [] then some a.unit else none
        min_alarm := if a.min_alarm ≠ [] then some a.min_alarm else none
        max_alarm := if a.max_alarm ≠ [] then some a.max_alarm else none
        min_warning := if a.min_warning ≠ [] then some a.min_warning else none
        max_warning := if a.max_warning ≠ [] then some a.max_warning else none }
    let attr : TangoAttr :=
      { name := a.name, varType := variableType, writeType := writeType, prop := prop }
    ({ dynamic_attribute_indices := dictSet st.dynamic_attribute_indices a.name a.index,
       added_attributes := st.added_attributes ++ [attr] },
     some attr)

/-- A sequence of `add_dynamic_attribute` calls, keeping only the state. -/
def runAdds (st : DeviceRegState) (ops : List DynAttrArgs) : DeviceRegState :=
  ops.foldl (fun s a => (add_dynamic_attribute s a).1) st

/-- Tango device states used by `init_device`. -/
inductive DevState where
  | INIT | ON | FAULT
deriving Repr, DecidableEq

/-- Exceptions that can escape `init_device`. -/
inductive PyError where
  | connectError
  | nodeError
  | jsonDecodeError
deriving Repr, DecidableEq

/-- The device state `init_device` builds: the Tango state plus the registry
layer. -/
structure FullState where
  tangoState : DevState
  reg : DeviceRegState
deriving Repr, DecidableEq

/-- The externally supplied context of one `init_device` run: whether
`network.connect` and the `RemoteNode` construction succeed, the
`init_dynamic_attributes` device property, and the outcome of
`json.loads` on it (`none` models a `JSONDecodeError`). -/
structure InitEnv where
  connectOk : Bool
  nodeOk : Bool
  init_dynamic_attributes : PyStr
  parsedAttributes : Option (List DynAttrArgs)
deriving Repr, DecidableEq

/-- Embeds `Canopen.init_device` (src/Canopen.py lines 95-126). The external
calls (`network.connect`, EDS temp-file handling, `RemoteNode`) are modelled
by the `InitEnv` flags; `json.loads` by `env.parsedAttributes`. An `.error`
result models the exception propagating uncaught out of `init_device`, paired
with the device state at the moment of the raise; in the source nothing
catches the connect/node failures, and the `except JSONDecodeError` handler
on lines 123-124 re-raises (`raise e`), so in all three error cases
`set_state(DevState.ON)` on line 126 is never reached. -/
def init_device (env : InitEnv) : Except (PyError × FullState) FullState :=
  let st : FullState := { tangoState := .INIT, reg := {} }
  if !env.connectOk then .error (.connectError, st)
  else if !env.nodeOk then .error (.nodeError, st)
  else if env.init_dynamic_attributes ≠ [] then
    match env.parsedAttributes with
    | none => .error (.jsonDecodeError, st)
    | some attrs => .ok { tangoState := .ON, reg := runAdds {} attrs }
  else .ok { tangoState := .ON, reg := {} }

/-- The network/node references the teardown path manages: whether a live
network connection and a `RemoteNode` reference are held. -/
structure ConnState where
  network : Bool
  node : Bool
deriving Repr, DecidableEq

/-- Modelled from the spec: `shutdown()`/`delete_device` is absent from
src/Canopen.py (only the repository's test `test_fix_delete_device`
references it). Spec section 4.4: "disconnects the network if connected,
releases the RemoteNode reference, is idempotent". Returns the new state and
whether `network.disconnect` was invoked; as a total function it models an
operation that never raises. -/
def shutdown (s : ConnState) : ConnState × Bool :=
  if s.network then ({ network := false, node := false }, true)
  else ({ network := false, node := false }, false)

/-- Claim C1: evaluating `sdo`'s resolution at the address `"0x2000#0x01"`:
the hex+sub branch keys the first-level access into `node.sdo` by the
original string `"0x2000"` (line 88 uses `mainIndex`, not the parsed
`mainIndexHex`), even though the parse `int("0x2000", 16) = 0x2000`
succeeds — refuting the claim that the access is keyed by the parsed
integer main index. -/
theorem sdo_hexsub_keyed_by_original_string :
    resolveSdoKey (str "0x2000#0x01") = some (.hexSubStr (str "0x2000") 1) ∧
    pyIntHex (str "0x2000") = some 0x2000 := by
  exact ⟨by decide, by decide⟩

/-- Claim C3: with a malformed declarative attribute list (`json.loads`
raises `JSONDecodeError`), `init_device` re-raises the error (`raise e`,
line 124): the exception propagates out of `init_device` and the device is
left in `INIT` — it never reaches `set_state(DevState.ON)` on line 126. -/
theorem init_device_json_error_propagates :
    init_device { connectOk := true, nodeOk := true,
                  init_dynamic_attributes := str "[", parsedAttributes := none }
      = .error (.jsonDecodeError, { tangoState := .INIT, reg := {} }) := rfl

/-- Claim C4: when `network.connect` fails, the exception propagates uncaught
out of `init_device` (lines 98-100 carry no try/except) and the device is
left in `INIT` — it is never transitioned to `FAULT`. -/
theorem init_device_connect_error_propagates :
    init_device { connectOk := false, nodeOk := true,
                  init_dynamic_attributes := [], parsedAttributes := none }
      = .error (.connectError, { tangoState := .INIT, reg := {} }) := rfl

/-- Claim C5: `shutdown` (modelled from the spec, absent from the source) is
idempotent: after one call the network is disconnected and the node reference
released, and a second call — equivalently a call on an already-torn-down
instance — changes nothing and performs no disconnect action. Being a total
function, it never fails. -/
theorem shutdown_idempotent (s : ConnState) :
    (shutdown (shutdown s).1).1 = (shutdown s).1 ∧
    (shutdown (shutdown s).1).2 = false ∧
    ((shutdown s).1).network = false ∧ ((shutdown s).1).node = false := by
  cases hs : s.network <;> simp [shutdown, hs]

/-- Claim C7: registering an attribute with an empty address string is a
complete no-op: the guard on lines 32-33 returns before any `Attr` is built,
before `self.add_attribute` is called, and before the registry is touched,
so the returned state is exactly the input state. -/
theorem add_dynamic_attribute_empty_index_noop (st : DeviceRegState) (a : DynAttrArgs)
    (h : a.index = []) : add_dynamic_attribute st a = (st, none) := by
  simp [add_dynamic_attribute, h]

/-- Witness for C7 at the concrete call `add_dynamic_attribute("skip_me", "")`
from an empty device state. -/
theorem add_dynamic_attribute_empty_index_noop_witness :
    add_dynamic_attribute {} { name := str "skip_me", index := [] } = ({}, none) :=
  add_dynamic_attribute_empty_index_noop {} { name := str "skip_me", index := [] } rfl

/-- Counterexample to claim C2: at `min_value = "5"`, `max_value = ""` the
claim says neither limit is applied, but the code applies the min limit
(`min_value != "" and min_value != max_value` holds, line 37), while the max
limit is not applied. -/
theorem add_dynamic_attribute_min_only_applies_min :
    ((add_dynamic_attribute {}
        { name := str "a", index := str "1", min_value := str "5" }).2.map
      (fun b => (b.prop.min_value, b.prop.max_value)))
      = some (some (str "5"), none) := by decide

/-- Claim C2 (amended): for any registered attribute, equal `min_value` and
`max_value` (in particular both non-empty) mean neither limit is applied; a
non-empty `min_value` with empty `max_value` applies the min limit alone; and
differing non-empty values apply both limits. -/
theorem add_dynamic_attribute_limit_policy (st : DeviceRegState) (a : DynAttrArgs)
    (b : TangoAttr) (hb : (add_dynamic_attribute st a).2 = some b) :
    (a.min_value = a.max_value → b.prop.min_value = none ∧ b.prop.max_value = none) ∧
    (a.min_value ≠ [] → a.max_value = [] →
        b.prop.min_value = some a.min_value ∧ b.prop.max_value = none) ∧
    (a.min_value ≠ [] → a.max_value ≠ [] → a.min_value ≠ a.max_value →
        b.prop.min_value = some a.min_value ∧ b.prop.max_value = some a.max_value) := by
  have hidx : ¬ a.index = [] := by
    intro h
    rw [add_dynamic_attribute, if_pos h] at hb
    exact Option.noConfusion hb
  rw [add_dynamic_attribute, if_neg hidx] at hb
  simp only [Option.some.injEq] at hb
  subst hb
  refine ⟨fun h => ?_, fun h1 h2 => ?_, fun h1 h2 h3 => ?_⟩
  · simp [h]
  · have h3 : a.min_value ≠ a.max_value := by rw [h2]; exact h1
    simp [h1, h2, h3]
  · simp [h1, h2, h3]

/-- The concrete registration used to witness C2's amended policy. -/
def limitArgs : DynAttrArgs :=
  { name := str "limited", index := str "700",
    min_value := str "0", max_value := str "100" }

/-- The attribute built for `limitArgs`: default type and write mode, min and
max limits both applied. -/
def limitAttr : TangoAttr :=
  { name := str "limited", varType := .DevString, writeType := .READ_WRITE,
    prop := { min_value := some (str "0"), max_value := some (str "100") } }

/-- Witness for C2's amended policy at `min_value = "0"`, `max_value = "100"`. -/
theorem add_dynamic_attribute_limit_policy_witness :
    (add_dynamic_attribute {} limitArgs).2 = some limitAttr ∧
    ((limitArgs.min_value = limitArgs.max_value →
        limitAttr.prop.min_value = none ∧ limitAttr.prop.max_value = none) ∧
     (limitArgs.min_value ≠ [] → limitArgs.max_value = [] →
        limitAttr.prop.min_value = some limitArgs.min_value ∧
        limitAttr.prop.max_value = none) ∧
     (limitArgs.min_value ≠ [] → limitArgs.max_value ≠ [] →
        limitArgs.min_value ≠ limitArgs.max_value →
        limitAttr.prop.min_value = some limitArgs.min_value ∧
        limitAttr.prop.max_value = some limitArgs.max_value)) :=
  ⟨by decide, add_dynamic_attribute_limit_policy {} limitArgs limitAttr (by decide)⟩

/-- In the hex branch with a `"#"`, a successful resolution always takes the
hex+sub shape. -/
theorem resolveSdoKey_hexsub_shape {s : PyStr} {k : SdoKey}
    (h0x : pyStartsWith s (str "0x") = true) (hc : pyContains s '#' = true)
    (hk : resolveSdoKey s = some k) : ∃ m i, k = SdoKey.hexSubStr m i := by
  rw [resolveSdoKey, if_pos h0x, if_pos hc] at hk
  split at hk
  · split at hk
    · exact absurd hk (by simp)
    · split at hk
      · exact absurd hk (by simp)
      · exact ⟨_, _, (Option.some_inj.mp hk).symm⟩
  · exact absurd hk (by simp)

/-- In the hex branch without a `"#"`, a successful resolution always takes
the one-level hex shape. -/
theorem resolveSdoKey_hex_shape {s : PyStr} {k : SdoKey}
    (h0x : pyStartsWith s (str "0x") = true) (hc : pyContains s '#' = false)
    (hk : resolveSdoKey s = some k) : ∃ i, k = SdoKey.hexIdx i := by
  rw [resolveSdoKey, if_pos h0x, if_neg (by simp [hc])] at hk
  split at hk
  · exact absurd hk (by simp)
  · exact ⟨_, (Option.some_inj.mp hk).symm⟩

/-- Claim C6: the grammar variants are tried in the fixed order hex+sub,
hex, decimal, named: a string starting with `"0x"` always resolves inside
the hex branch (hex+sub when it contains `"#"`, one-level hex otherwise) and
is never resolved as `decIdx` or `named`; a string not starting with `"0x"`
resolves as `decIdx` exactly when it is all decimal digits, else as `named`. -/
theorem sdo_grammar_precedence (s : PyStr) (k : SdoKey)
    (hk : resolveSdoKey s = some k) :
    (pyStartsWith s (str "0x") = true →
        (∀ i, k ≠ SdoKey.decIdx i) ∧ (∀ n, k ≠ SdoKey.named n) ∧
        (pyContains s '#' = true → ∃ m i, k = SdoKey.hexSubStr m i) ∧
        (pyContains s '#' = false → ∃ i, k = SdoKey.hexIdx i)) ∧
    (pyStartsWith s (str "0x") = false → pyIsDigit s = true →
        k = SdoKey.decIdx (pyIntDec s)) ∧
    (pyStartsWith s (str "0x") = false → pyIsDigit s = false →
        k = SdoKey.named s) := by
  refine ⟨fun h0x => ?_, fun h0x hd => ?_, fun h0x hd => ?_⟩
  · cases hc : pyContains s '#' with
    | true =>
      obtain ⟨m, i, rfl⟩ := resolveSdoKey_hexsub_shape h0x hc hk
      exact ⟨fun _ => by simp, fun _ => by simp, fun _ => ⟨m, i, rfl⟩,
             fun hcf => by simp [hc] at hcf⟩
    | false =>
      obtain ⟨i, rfl⟩ := resolveSdoKey_hex_shape h0x hc hk
      exact ⟨fun _ => by simp, fun _ => by simp, fun hct => by simp [hc] at hct,
             fun _ => ⟨i, rfl⟩⟩
  · rw [resolveSdoKey, if_neg (by simp [h0x]), if_pos hd] at hk
    exact (Option.some_inj.mp hk).symm
  · rw [resolveSdoKey, if_neg (by simp [h0x]), if_neg (by simp [hd])] at hk
    exact (Option.some_inj.mp hk).symm

/-- Witness for C6 at the spec's example `"0x2000#0x01"`, which resolves in
the hex+sub branch (and is in particular neither `decIdx` nor `named`). -/
theorem sdo_grammar_precedence_witness :
    resolveSdoKey (str "0x2000#0x01") = some (SdoKey.hexSubStr (str "0x2000") 1) ∧
    ((pyStartsWith (str "0x2000#0x01") (str "0x") = true →
        (∀ i, SdoKey.hexSubStr (str "0x2000") 1 ≠ SdoKey.decIdx i) ∧
        (∀ n, SdoKey.hexSubStr (str "0x2000") 1 ≠ SdoKey.named n) ∧
        (pyContains (str "0x2000#0x01") '#' = true →
          ∃ m i, SdoKey.hexSubStr (str "0x2000") 1 = SdoKey.hexSubStr m i) ∧
        (pyContains (str "0x2000#0x01") '#' = false →
          ∃ i, SdoKey.hexSubStr (str "0x2000") 1 = SdoKey.hexIdx i)) ∧
     (pyStartsWith (str "0x2000#0x01") (str "0x") = false →
        pyIsDigit (str "0x2000#0x01") = true →
        SdoKey.hexSubStr (str "0x2000") 1 = SdoKey.decIdx (pyIntDec (str "0x2000#0x01"))) ∧
     (pyStartsWith (str "0x2000#0x01") (str "0x") = false →
        pyIsDigit (str "0x2000#0x01") = false →
        SdoKey.hexSubStr (str "0x2000") 1 = SdoKey.named (str "0x2000#0x01"))) :=
  ⟨by decide, sdo_grammar_precedence _ _ (by decide)⟩

/-- Claim C8: address resolution is a pure, deterministic function of the
address string: with the registry's binding for `name` fixed, `sdo`'s
resolution yields the same access key regardless of the rest of the state,
and resolving any address string twice yields the same variant and values. -/
theorem sdo_resolution_deterministic (r₁ r₂ : List (PyStr × PyStr)) (name : PyStr)
    (h : lookupReg r₁ name = lookupReg r₂ name) :
    sdoResolve r₁ name = sdoResolve r₂ name ∧
    ∀ s : PyStr, resolveSdoKey s = resolveSdoKey s := by
  constructor
  · unfold sdoResolve
    rw [h]
  · intro s
    rfl

/-- Witness for C8: two registries agreeing on `"a"` (one holding an extra
binding) resolve `"a"` to the same key. -/
theorem sdo_resolution_deterministic_witness :
    lookupReg [(str "a", str "0x10")] (str "a")
      = lookupReg [(str "a", str "0x10"), (str "b", str "5")] (str "a") ∧
    sdoResolve [(str "a", str "0x10")] (str "a")
      = sdoResolve [(str "a", str "0x10"), (str "b", str "5")] (str "a") :=
  ⟨by decide, (sdo_resolution_deterministic _ _ _ (by decide)).1⟩

/-- Every binding of `dictSet d k v` is a binding of `d` or the new pair. -/
theorem mem_dictSet {d : List (PyStr × PyStr)} {k v : PyStr} {p : PyStr × PyStr}
    (hp : p ∈ dictSet d k v) : p ∈ d ∨ p = (k, v) := by
  unfold dictSet at hp
  split at hp
  · obtain ⟨q, hq, hfq⟩ := List.mem_map.mp hp
    by_cases hqk : q.1 = k
    · right
      rw [if_pos hqk] at hfq
      exact hfq.symm
    · left
      rw [if_neg hqk] at hfq
      exact hfq ▸ hq
  · rcases List.mem_append.mp hp with h | h
    · exact Or.inl h
    · exact Or.inr (by simpa using h)

/-- One `add_dynamic_attribute` call preserves "every stored index string is
non-empty": the empty-index guard returns before the insert, and the insert
stores the guarded index. -/
theorem add_preserves_nonempty {st : DeviceRegState} (a : DynAttrArgs)
    (hst : ∀ p ∈ st.dynamic_attribute_indices, p.2 ≠ []) :
    ∀ p ∈ (add_dynamic_attribute st a).1.dynamic_attribute_indices, p.2 ≠ [] := by
  intro p hp
  rw [add_dynamic_attribute] at hp
  by_cases hidx : a.index = []
  · rw [if_pos hidx] at hp
    exact hst p hp
  · rw [if_neg hidx] at hp
    rcases mem_dictSet hp with h | h
    · exact hst p h
    · rw [h]
      exact hidx

/-- Claim C9: starting from the empty registry, after any sequence of
`add_dynamic_attribute` calls every index string stored in
`dynamic_attribute_indices` is non-empty. -/
theorem registry_indices_nonempty (ops : List DynAttrArgs) :
    ∀ p ∈ (runAdds {} ops).dynamic_attribute_indices, p.2 ≠ [] := by
  have key : ∀ (l : List DynAttrArgs) (st : DeviceRegState),
      (∀ p ∈ st.dynamic_attribute_indices, p.2 ≠ []) →
      ∀ p ∈ (runAdds st l).dynamic_attribute_indices, p.2 ≠ [] := by
    intro l
    induction l with
    | nil => exact fun st h => h
    | cons a rest ih => exact fun st h => ih _ (add_preserves_nonempty a h)
  exact key ops {} (by intro p hp; simp at hp)

/-- Witness for C9 after one registration: the stored pair's index `"0x6041"`
is non-empty. -/
theorem registry_indices_nonempty_witness :
    (str "motor", str "0x6041")
        ∈ (runAdds {} [{ name := str "motor", index := str "0x6041" }]).dynamic_attribute_indices ∧
    (str "0x6041" : PyStr) ≠ [] :=
  ⟨by decide,
   registry_indices_nonempty [{ name := str "motor", index := str "0x6041" }]
     (str "motor", str "0x6041") (by decide)⟩

/-- Claim C10: the `startswith("0x")` check on line 83 is case-sensitive: a
string beginning with `"0X"` (capital X) that is not all decimal digits falls
through both the hex branch and the digit branch and resolves as `named`,
with the literal string as the lookup key. -/
theorem hex_prefix_case_sensitive (s : PyStr) (h1 : pyStartsWith s (str "0X") = true)
    (h2 : pyIsDigit s = false) :
    resolveSdoKey s = some (SdoKey.named s) := by
  cases s with
  | nil => simp [pyStartsWith, str, List.isPrefixOf] at h1
  | cons a rest =>
    cases rest with
    | nil => simp [pyStartsWith, str, List.isPrefixOf] at h1
    | cons b t =>
      simp only [pyStartsWith, str, List.isPrefixOf, Bool.and_eq_true, beq_iff_eq] at h1
      obtain ⟨ha, hb, -⟩ := h1
      subst ha
      subst hb
      have hA : pyStartsWith ('0' :: 'X' :: t) (str "0x") = false := by
        simp [pyStartsWith, str, List.isPrefixOf]
      rw [resolveSdoKey, if_neg (by simp [hA]), if_neg (by simp [h2])]

/-- Witness for C10 at `"0X2000"`: resolved as `named "0X2000"`. -/
theorem hex_prefix_case_sensitive_witness :
    pyStartsWith (str "0X2000") (str "0X") = true ∧
    pyIsDigit (str "0X2000") = false ∧
    resolveSdoKey (str "0X2000") = some (SdoKey.named (str "0X2000")) :=
  ⟨by decide, by decide, hex_prefix_case_sensitive (str "0X2000") (by decide) (by decide)⟩

end CanopenDev
